import Mathlib

/-!
Verification of the serial command/response layer in src/src/serial_comm.c
(esp-serial-flasher): the SLIP byte-stuffing codec, the XOR checksum, the
response matcher and the per-command packet builders with their session
sequence counter.

Bytes are modelled as natural numbers (uint8 values are below 256; arithmetic
that could overflow in C carries an explicit mod). Fallible C functions
returning esp_loader_error_t are modelled with Except: ESP_LOADER_SUCCESS is
Except.ok, the error codes are the loader_err type below. The byte transport
(loader_port_serial_read / loader_port_serial_write) is modelled by passing an
explicit input stream of bytes (reads consume it; an exhausted stream is the
transport deadline expiring, modelled as TIMEOUT) and by collecting written
bytes as a list.
-/

set_option autoImplicit false

/-- Modelled from the spec: the error outcomes of esp_loader_error_t that this
layer produces or propagates (the enum is declared in a header that is not part
of the source tree). ESP_LOADER_SUCCESS is represented by Except.ok. -/
inductive loader_err where
  | FAIL
  | TIMEOUT
  | INVALID_RESPONSE
deriving DecidableEq, Repr

/-- Modelled from the spec: the closed command enumeration command_t declared
in serial_comm_prv.h (not in the source tree). Only the constructors matter to
the code under verification, which compares commands for equality. -/
inductive command_t where
  | SYNC
  | FLASH_BEGIN
  | FLASH_DATA
  | FLASH_END
  | MEM_BEGIN
  | MEM_DATA
  | MEM_END
  | WRITE_REG
  | READ_REG
  | SPI_ATTACH
deriving DecidableEq, Repr

/-- Modelled from the spec: the device-reported failure codes error_code_t
declared in serial_comm_prv.h (not in the source tree). check_response only
logs them. -/
inductive error_code_t where
  | INVALID_CRC
  | INVALID_COMMAND
  | COMMAND_FAILED
  | FLASH_WRITE_ERR
  | FLASH_READ_ERR
  | READ_LENGTH_ERR
  | DEFLATE_ERROR
  | UNKNOWN
deriving DecidableEq, Repr

/-- Modelled from the spec: the constant direction value tagging device-to-host
response frames (READ_DIRECTION in serial_comm_prv.h, not in the source
tree). -/
def READ_DIRECTION : Nat := 1

/-- Modelled from the spec: response status value for FAILURE (STATUS_FAILURE
in serial_comm_prv.h, not in the source tree). -/
def STATUS_FAILURE : Nat := 1

/-- Modelled from the spec: response status value for SUCCESS. -/
def STATUS_SUCCESS : Nat := 0

/-- Modelled from the spec: the decoded response record response_t
(serial_comm_prv.h is not in the source tree): direction, echoed command id,
32-bit result value, status and device error code. -/
structure response_t where
  direction : Nat
  command : command_t
  value : Nat
  status : Nat
  error : error_code_t
deriving DecidableEq, Repr

-- serial_comm.c line 24: static const uint8_t DELIMITER = 0xc0;
def DELIMITER : Nat := 0xc0

-- serial_comm.c line 25: replacement pair written for a 0xc0 data byte.
def C0_REPLACEMENT : List Nat := [0xdb, 0xdc]

-- serial_comm.c line 26: replacement pair written for a 0xdb data byte.
def BD_REPLACEMENT : List Nat := [0xdb, 0xdd]

/-- compute_checksum, serial_comm.c lines 41-50: XOR of every data byte into a
seed of 0xEF. The C accumulator is uint8 and the inputs are uint8, so the XOR
never leaves the byte range and needs no explicit mod. -/
def compute_checksum (data : List Nat) : Nat :=
  data.foldl Nat.xor 0xEF

/-- The delimiter-synchronisation loop of SLIP_receive_packet, serial_comm.c
lines 58-63: read and discard bytes until a delimiter appears; a failing
transport read (exhausted stream) propagates as TIMEOUT. Returns the stream
after the delimiter. -/
def SLIP_wait_delimiter : List Nat → Except loader_err (List Nat)
  | [] => .error .TIMEOUT
  | ch :: s => if ch = DELIMITER then .ok s else SLIP_wait_delimiter s

/-- The decoding loop of SLIP_receive_packet, serial_comm.c lines 65-80: read
exactly the given number of decoded bytes. An 0xdb escape byte consumes a
second byte mapped 0xdc to 0xc0 and 0xdd to 0xbd, any other follow byte is
ESP_LOADER_ERROR_INVALID_RESPONSE; other bytes pass through. Returns the
decoded buffer and the remaining stream. -/
def SLIP_read_loop : Nat → List Nat → Except loader_err (List Nat × List Nat)
  | 0, s => .ok ([], s)
  | _ + 1, [] => .error .TIMEOUT
  | n + 1, ch :: s =>
    if ch = 0xdb then
      match s with
      | [] => .error .TIMEOUT
      | ch2 :: s2 =>
        if ch2 = 0xdc then
          (SLIP_read_loop n s2).map (fun p => (0xc0 :: p.1, p.2))
        else if ch2 = 0xdd then
          (SLIP_read_loop n s2).map (fun p => (0xbd :: p.1, p.2))
        else
          .error .INVALID_RESPONSE
    else
      (SLIP_read_loop n s).map (fun p => (ch :: p.1, p.2))

/-- SLIP_receive_packet, serial_comm.c lines 53-89: synchronise on a delimiter,
decode buff_size bytes, then require one trailing delimiter byte; a
non-delimiter trailer is ESP_LOADER_ERROR_INVALID_RESPONSE. -/
def SLIP_receive_packet (stream : List Nat) (buff_size : Nat) :
    Except loader_err (List Nat × List Nat) :=
  match SLIP_wait_delimiter stream with
  | .error e => .error e
  | .ok s =>
    match SLIP_read_loop buff_size s with
    | .error e => .error e
    | .ok (buff, s2) =>
      match s2 with
      | [] => .error .TIMEOUT
      | ch :: s3 => if ch ≠ DELIMITER then .error .INVALID_RESPONSE else .ok (buff, s3)

/-- The loop of SLIP_send, serial_comm.c lines 97-119: pending holds the run of
consecutive non-special bytes not yet flushed (data[written..i) in the C); a
special byte flushes the run and emits its two-byte replacement, and the final
flush emits the trailing run. The value is the concatenation of all bytes
passed to serial_write, in order. -/
def SLIP_send_go : List Nat → List Nat → List Nat
  | pending, [] => pending
  | pending, b :: rest =>
    if b ≠ 0xc0 ∧ b ≠ 0xdb then
      SLIP_send_go (pending ++ [b]) rest
    else
      pending ++ (if b = 0xc0 then C0_REPLACEMENT else BD_REPLACEMENT) ++
        SLIP_send_go [] rest

/-- SLIP_send, serial_comm.c lines 92-122: the byte sequence written to the
transport for the given data (transport writes are assumed to succeed; the
batching of verbatim bytes into single write calls does not change the
emitted byte sequence). -/
def SLIP_send (data : List Nat) : List Nat :=
  SLIP_send_go [] data

/-- The framing performed by send_cmd, serial_comm.c lines 135-137: a leading
delimiter (SLIP_send_delimiter), the SLIP-encoded packet bytes, a trailing
delimiter. -/
def send_cmd_frame (cmd_data : List Nat) : List Nat :=
  DELIMITER :: SLIP_send cmd_data ++ [DELIMITER]

/-- Abstraction of the byte transport for a single command: the outcome of the
framed write phase (the first failing serial_write of send_cmd propagates, so
one combined result suffices), and the sequence of outcomes of the successive
SLIP_receive_packet calls made by check_response, each either a transport or
decode error or a decoded response_t record. -/
structure Transport where
  writeResult : Except loader_err Unit
  frames : List (Except loader_err response_t)
deriving Repr

/-- check_response, serial_comm.c lines 172-194: receive frames until one has
the response direction and the awaited command id (a failing receive
propagates immediately; an exhausted frame list is the transport deadline,
TIMEOUT); a matching frame with STATUS_FAILURE is logged and returned as
ESP_LOADER_ERROR_INVALID_RESPONSE; on success the value field is stored
through reg_value when the pointer is non-null. The second component is the
final contents of the cell reg_value points to (none models a NULL pointer). -/
def check_response (cmd : command_t) (frames : List (Except loader_err response_t))
    (reg_value : Option Nat) : Except loader_err Unit × Option Nat :=
  match frames with
  | [] => (.error .TIMEOUT, reg_value)
  | .error e :: _ => (.error e, reg_value)
  | .ok response :: rest =>
    if response.direction ≠ READ_DIRECTION ∨ response.command ≠ cmd then
      check_response cmd rest reg_value
    else if response.status = STATUS_FAILURE then
      (.error .INVALID_RESPONSE, reg_value)
    else
      (.ok (), reg_value.map (fun _ => response.value))

/-- True of a received frame that check_response discards: a decoded record
whose direction is not READ_DIRECTION or whose command differs from the
awaited one (serial_comm.c line 182). -/
def nonmatching_frame (cmd : command_t) (f : Except loader_err response_t) : Bool :=
  match f with
  | .ok r => decide (r.direction ≠ READ_DIRECTION) || decide (r.command ≠ cmd)
  | .error _ => false

/-- Modelled from the spec: the fixed header command_common_t preceding every
request (serial_comm_prv.h is not in the source tree): direction, command id,
payload_size and checksum byte. -/
structure command_common_t where
  direction : Nat
  command : command_t
  size : Nat
  checksum : Nat
deriving DecidableEq, Repr

/-- Modelled from the spec: begin_command_t, the fixed-layout record of the
flash/mem begin commands. -/
structure begin_command_t where
  common : command_common_t
  erase_size : Nat
  packet_count : Nat
  packet_size : Nat
  offset : Nat
deriving DecidableEq, Repr

/-- Modelled from the spec: data_command_t, the fixed-layout record of the
flash/mem data commands: declared data length, running sequence number and two
reserved zero fields (the variable payload follows separately). -/
structure data_command_t where
  common : command_common_t
  data_size : Nat
  sequence_number : Nat
  zero_0 : Nat
  zero_1 : Nat
deriving DecidableEq, Repr

/-- Modelled from the spec: read_reg_command_t, the register-read request
record. -/
structure read_reg_command_t where
  common : command_common_t
  address : Nat
deriving DecidableEq, Repr

/-- send_cmd, serial_comm.c lines 131-140: frame and write the packet, then
await the response for the packet header's command; a write failure
propagates before any receive. Returns the result and the final contents of
the caller's register cell. -/
def send_cmd (t : Transport) (common : command_common_t) (reg_value : Option Nat) :
    Except loader_err Unit × Option Nat :=
  match t.writeResult with
  | .error e => (.error e, reg_value)
  | .ok _ => check_response common.command t.frames reg_value

/-- send_cmd_with_data, serial_comm.c lines 143-154: like send_cmd with the
variable payload written inside the same frame and a NULL register pointer. -/
def send_cmd_with_data (t : Transport) (common : command_common_t) :
    Except loader_err Unit :=
  match t.writeResult with
  | .error e => .error e
  | .ok _ => (check_response common.command t.frames none).1

/-- The protocol layer's mutable state: the session sequence counter
s_sequence_number, serial_comm.c line 22 (a uint32_t, so increments wrap at
2^32). -/
structure LoaderState where
  s_sequence_number : Nat
deriving DecidableEq, Repr

/-- loader_flash_begin_cmd, serial_comm.c lines 197-218: build the FLASH_BEGIN
packet, reset the sequence counter to 0 (before sending, so the reset happens
whatever the transport does), send and await. -/
def loader_flash_begin_cmd (offset erase_size block_size blocks_to_write : Nat)
    (t : Transport) (_st : LoaderState) : Except loader_err Unit × LoaderState :=
  let begin_cmd : begin_command_t := {
    common := { direction := 0, command := .FLASH_BEGIN, size := 16, checksum := 0 },
    erase_size := erase_size,
    packet_count := blocks_to_write,
    packet_size := block_size,
    offset := offset }
  ((send_cmd t begin_cmd.common none).1, { s_sequence_number := 0 })

/-- loader_mem_begin_cmd, serial_comm.c lines 278-299: the MEM_BEGIN analogue
of loader_flash_begin_cmd, also resetting the sequence counter to 0. -/
def loader_mem_begin_cmd (offset total_size packet_size packets_to_write : Nat)
    (t : Transport) (_st : LoaderState) : Except loader_err Unit × LoaderState :=
  let begin_cmd : begin_command_t := {
    common := { direction := 0, command := .MEM_BEGIN, size := 16, checksum := 0 },
    erase_size := total_size,
    packet_count := packets_to_write,
    packet_size := packet_size,
    offset := offset }
  ((send_cmd t begin_cmd.common none).1, { s_sequence_number := 0 })

/-- loader_flash_data_cmd, serial_comm.c lines 221-237: build the FLASH_DATA
packet carrying the payload checksum and the current sequence counter, whose
post-increment (s_sequence_number++, wrapping as uint32) happens at build
time, before the send. The last component is the packet written to the wire. -/
def loader_flash_data_cmd (data : List Nat) (t : Transport) (st : LoaderState) :
    Except loader_err Unit × LoaderState × data_command_t :=
  let data_cmd : data_command_t := {
    common := { direction := 0, command := .FLASH_DATA, size := 16,
                checksum := compute_checksum data },
    data_size := data.length,
    sequence_number := st.s_sequence_number,
    zero_0 := 0,
    zero_1 := 0 }
  (send_cmd_with_data t data_cmd.common,
   { s_sequence_number := (st.s_sequence_number + 1) % 2 ^ 32 },
   data_cmd)

/-- loader_mem_data_cmd, serial_comm.c lines 302-318: the MEM_DATA analogue of
loader_flash_data_cmd, with the same build-time post-increment of the
sequence counter. -/
def loader_mem_data_cmd (data : List Nat) (t : Transport) (st : LoaderState) :
    Except loader_err Unit × LoaderState × data_command_t :=
  let data_cmd : data_command_t := {
    common := { direction := 0, command := .MEM_DATA, size := 16,
                checksum := compute_checksum data },
    data_size := data.length,
    sequence_number := st.s_sequence_number,
    zero_0 := 0,
    zero_1 := 0 }
  (send_cmd_with_data t data_cmd.common,
   { s_sequence_number := (st.s_sequence_number + 1) % 2 ^ 32 },
   data_cmd)

/-- loader_read_reg_cmd, serial_comm.c lines 358-371: build the READ_REG
packet and send it with the caller's register cell as the non-null result
pointer; the second component is the final contents of that cell. -/
def loader_read_reg_cmd (address reg : Nat) (t : Transport) :
    Except loader_err Unit × Nat :=
  let read_cmd : read_reg_command_t := {
    common := { direction := 0, command := .READ_REG, size := 16, checksum := 0 },
    address := address }
  let res := send_cmd t read_cmd.common (some reg)
  (res.1, res.2.getD reg)

/-- One call to a begin or data entry point, with the transport behaviour it
meets, for reasoning about sequences of operations on the session counter. -/
inductive LoaderOp where
  | flash_begin (offset erase_size block_size blocks_to_write : Nat) (t : Transport)
  | mem_begin (offset total_size packet_size packets_to_write : Nat) (t : Transport)
  | flash_data (data : List Nat) (t : Transport)
  | mem_data (data : List Nat) (t : Transport)
deriving Repr

/-- True of the data-command operations. -/
def LoaderOp.isData : LoaderOp → Bool
  | .flash_data _ _ => true
  | .mem_data _ _ => true
  | _ => false

/-- True of the begin-command operations. -/
def LoaderOp.isBegin : LoaderOp → Bool
  | .flash_begin _ _ _ _ _ => true
  | .mem_begin _ _ _ _ _ => true
  | _ => false

/-- Run a sequence of operations through the loader entry points, threading
the session counter and collecting the data packets built, in order. -/
def run_ops : List LoaderOp → LoaderState → List data_command_t × LoaderState
  | [], st => ([], st)
  | .flash_begin o e b c t :: rest, st =>
    run_ops rest (loader_flash_begin_cmd o e b c t st).2
  | .mem_begin o e b c t :: rest, st =>
    run_ops rest (loader_mem_begin_cmd o e b c t st).2
  | .flash_data d t :: rest, st =>
    let r := loader_flash_data_cmd d t st
    let rs := run_ops rest r.2.1
    (r.2.2 :: rs.1, rs.2)
  | .mem_data d t :: rest, st =>
    let r := loader_mem_data_cmd d t st
    let rs := run_ops rest r.2.1
    (r.2.2 :: rs.1, rs.2)

theorem nat_xor_eq_hxor (a b : Nat) : Nat.xor a b = a ^^^ b := rfl

theorem foldl_xor_shift (L : List Nat) :
    ∀ e : Nat, L.foldl Nat.xor e = Nat.xor e (L.foldl Nat.xor 0) := by
  induction L with
  | nil =>
    intro e
    simp only [List.foldl_nil, nat_xor_eq_hxor]
    exact (Nat.xor_zero e).symm
  | cons b t ih =>
    intro e
    simp only [List.foldl_cons]
    rw [ih (Nat.xor e b), ih (Nat.xor 0 b)]
    simp only [nat_xor_eq_hxor]
    rw [Nat.zero_xor, Nat.xor_assoc]

theorem SLIP_send_go_plain (data : List Nat) :
    ∀ pending : List Nat, (∀ b ∈ data, b ≠ 0xc0 ∧ b ≠ 0xdb) →
      SLIP_send_go pending data = pending ++ data := by
  induction data with
  | nil => intro p _; simp [SLIP_send_go]
  | cons b rest ih =>
    intro p h
    have hb := h b (List.mem_cons_self b rest)
    simp only [SLIP_send_go]
    rw [if_pos hb, ih (p ++ [b]) (fun x hx => h x (List.mem_cons_of_mem b hx))]
    simp

theorem SLIP_read_loop_escape_err (k : Nat) :
    ∀ (n : Nat) (s buff rest : List Nat) (x : Nat),
      SLIP_read_loop k s = .ok (buff, 0xdb :: x :: rest) → k < n →
      x ≠ 0xdc → x ≠ 0xdd →
      SLIP_read_loop n s = .error .INVALID_RESPONSE := by
  induction k with
  | zero =>
    intro n s buff rest x hk hkn hx1 hx2
    simp only [SLIP_read_loop, Except.ok.injEq, Prod.mk.injEq] at hk
    obtain ⟨rfl, rfl⟩ := hk
    obtain ⟨n0, rfl⟩ : ∃ n0, n = n0 + 1 := ⟨n - 1, by omega⟩
    simp [SLIP_read_loop, hx1, hx2]
  | succ k ih =>
    intro n s buff rest x hk hkn hx1 hx2
    obtain ⟨n0, rfl⟩ : ∃ n0, n = n0 + 1 := ⟨n - 1, by omega⟩
    cases s with
    | nil => simp [SLIP_read_loop] at hk
    | cons ch s0 =>
      by_cases hch : ch = 0xdb
      · subst hch
        cases s0 with
        | nil => simp [SLIP_read_loop] at hk
        | cons ch2 s2 =>
          by_cases h2 : ch2 = 0xdc
          · subst h2
            simp only [SLIP_read_loop, reduceIte] at hk ⊢
            cases hr : SLIP_read_loop k s2 with
            | error e => rw [hr] at hk; simp [Except.map] at hk
            | ok p =>
              rw [hr] at hk
              simp only [Except.map, Except.ok.injEq, Prod.mk.injEq] at hk
              rw [ih n0 s2 p.1 rest x (by rw [hr, ← hk.2]) (by omega) hx1 hx2]
              simp [Except.map]
          · by_cases h3 : ch2 = 0xdd
            · subst h3
              simp only [SLIP_read_loop, reduceIte] at hk ⊢
              rw [if_neg h2] at hk ⊢
              cases hr : SLIP_read_loop k s2 with
              | error e => rw [hr] at hk; simp [Except.map] at hk
              | ok p =>
                rw [hr] at hk
                simp only [Except.map, Except.ok.injEq, Prod.mk.injEq] at hk
                rw [ih n0 s2 p.1 rest x (by rw [hr, ← hk.2]) (by omega) hx1 hx2]
                simp [Except.map]
            · simp only [SLIP_read_loop, reduceIte] at hk
              rw [if_neg h2, if_neg h3] at hk
              simp at hk
      · simp only [SLIP_read_loop] at hk ⊢
        rw [if_neg hch] at hk ⊢
        cases hr : SLIP_read_loop k s0 with
        | error e => rw [hr] at hk; simp [Except.map] at hk
        | ok p =>
          rw [hr] at hk
          simp only [Except.map, Except.ok.injEq, Prod.mk.injEq] at hk
          rw [ih n0 s0 p.1 rest x (by rw [hr, ← hk.2]) (by omega) hx1 hx2]
          simp [Except.map]

/-- Claim C1: the SLIP round-trip property fails on the code for sequences
containing the escape byte 0xDB. The encoder (SLIP_send) escapes 0xDB as
0xDB 0xDD, but the decoder (SLIP_receive_packet, serial_comm.c line 73) maps
the pair 0xDB 0xDD to 0xBD, a transposed constant, so decoding the framed
encoding of [0xDB] yields [0xBD], not the original sequence. -/
theorem SLIP_escape_roundtrip_bug :
    SLIP_receive_packet (send_cmd_frame [0xdb]) 1 = .ok ([0xbd], []) ∧
      ([0xbd] : List Nat) ≠ [0xdb] :=
  ⟨rfl, by decide⟩

/-- Claim C2 (counterexample): the checksum of a concatenation never depends
on the order of the two parts, because XOR is commutative and associative;
in particular with A = [1] and B = [2], A ≠ B yet
compute_checksum (A ++ B) = compute_checksum (B ++ A), contradicting the
claim that the two generally differ. -/
theorem compute_checksum_order_counterexample :
    ([1] : List Nat) ≠ [2] ∧
      compute_checksum ([1] ++ [2]) = compute_checksum ([2] ++ [1]) :=
  ⟨by decide, by decide⟩

/-- Claim C2 (amended): compute_checksum is deterministic (it is a function of
the byte list); the checksum of the empty sequence equals the seed 0xEF; and
for all sequences A and B, compute_checksum (A ++ B) equals
compute_checksum (B ++ A) — XOR folding is order-insensitive across
concatenation, so the two never differ. -/
theorem compute_checksum_concat_comm (A B : List Nat) :
    compute_checksum (A ++ B) = compute_checksum (B ++ A) ∧
      compute_checksum [] = 0xEF := by
  constructor
  · unfold compute_checksum
    rw [List.foldl_append, List.foldl_append,
      foldl_xor_shift B (List.foldl Nat.xor 0xEF A),
      foldl_xor_shift A (List.foldl Nat.xor 0xEF B),
      foldl_xor_shift A 0xEF, foldl_xor_shift B 0xEF]
    simp only [nat_xor_eq_hxor]
    rw [Nat.xor_assoc, Nat.xor_assoc,
      Nat.xor_comm (List.foldl Nat.xor 0 A) (List.foldl Nat.xor 0 B)]
  · rfl

/-- Claim C6: whenever decoding reads the escape byte 0xDB followed by a byte
that is neither 0xDC nor 0xDD — after the delimiter synchronisation succeeded
and any number k of bytes were already decoded, with more bytes still
expected — SLIP_receive_packet fails with INVALID_RESPONSE. -/
theorem SLIP_receive_packet_invalid_escape (stream s0 buff rest : List Nat)
    (k n x : Nat)
    (hw : SLIP_wait_delimiter stream = .ok s0)
    (hk : SLIP_read_loop k s0 = .ok (buff, 0xdb :: x :: rest))
    (hkn : k < n) (hx1 : x ≠ 0xdc) (hx2 : x ≠ 0xdd) :
    SLIP_receive_packet stream n = .error .INVALID_RESPONSE := by
  have h := SLIP_read_loop_escape_err k n s0 buff rest x hk hkn hx1 hx2
  simp [SLIP_receive_packet, hw, h]

theorem SLIP_receive_packet_invalid_escape_witness :
    SLIP_receive_packet [0xc0, 0x01, 0xdb, 0x07, 0xc0] 3 =
      .error .INVALID_RESPONSE :=
  SLIP_receive_packet_invalid_escape [0xc0, 0x01, 0xdb, 0x07, 0xc0]
    [0x01, 0xdb, 0x07, 0xc0] [0x01] [0xc0] 1 3 0x07 rfl rfl
    (by decide) (by decide) (by decide)

/-- Claim C7: after the caller-specified number n of decoded bytes has been
produced, SLIP_receive_packet reads one more byte, and when that byte is not
the delimiter 0xC0 it fails with INVALID_RESPONSE. -/
theorem SLIP_receive_packet_bad_trailer (stream s0 buff rest : List Nat)
    (n b : Nat)
    (hw : SLIP_wait_delimiter stream = .ok s0)
    (hl : SLIP_read_loop n s0 = .ok (buff, b :: rest))
    (hb : b ≠ DELIMITER) :
    SLIP_receive_packet stream n = .error .INVALID_RESPONSE := by
  simp [SLIP_receive_packet, hw, hl, hb]

theorem SLIP_receive_packet_bad_trailer_witness :
    SLIP_receive_packet [0xc0, 0x41, 0x42, 0x99] 2 = .error .INVALID_RESPONSE :=
  SLIP_receive_packet_bad_trailer [0xc0, 0x41, 0x42, 0x99] [0x41, 0x42, 0x99]
    [0x41, 0x42] [] 2 0x99 rfl rfl (by decide)

/-- Claim C8: for every byte sequence containing neither 0xC0 nor 0xDB, the
framing produced by send_cmd — delimiter, SLIP_send output, delimiter — is
exactly the delimiter byte, the input verbatim with no escaping, and the
delimiter byte. -/
theorem send_cmd_frame_no_escape (data : List Nat)
    (h : ∀ b ∈ data, b < 256 ∧ b ≠ 0xc0 ∧ b ≠ 0xdb) :
    send_cmd_frame data = DELIMITER :: data ++ [DELIMITER] := by
  unfold send_cmd_frame SLIP_send
  rw [SLIP_send_go_plain data [] (fun b hb => (h b hb).2)]
  simp

theorem send_cmd_frame_no_escape_witness :
    send_cmd_frame [0x01, 0x02] = DELIMITER :: [0x01, 0x02] ++ [DELIMITER] :=
  send_cmd_frame_no_escape [0x01, 0x02] (by decide)

theorem check_response_skip (cmd : command_t)
    (pre frames : List (Except loader_err response_t)) (reg_value : Option Nat)
    (h : ∀ f ∈ pre, nonmatching_frame cmd f = true) :
    check_response cmd (pre ++ frames) reg_value =
      check_response cmd frames reg_value := by
  induction pre with
  | nil => rfl
  | cons f pre ih =>
    have hf := h f (List.mem_cons_self f pre)
    cases f with
    | error e => simp [nonmatching_frame] at hf
    | ok r =>
      have hcond : r.direction ≠ READ_DIRECTION ∨ r.command ≠ cmd := by
        simp only [nonmatching_frame, Bool.or_eq_true, decide_eq_true_eq] at hf
        exact hf
      rw [List.cons_append]
      simp only [check_response]
      rw [if_pos hcond]
      exact ih (fun g hg => h g (List.mem_cons_of_mem _ hg))

/-- Claim C4: while awaiting the response to a command, check_response
discards every decoded frame whose direction is not READ_DIRECTION or whose
command differs from the outstanding command, and returns the result of the
first matching frame (failure status mapped to INVALID_RESPONSE, success
storing the value through a non-null register pointer). -/
theorem check_response_first_match (cmd : command_t)
    (pre rest : List (Except loader_err response_t)) (r : response_t)
    (reg_value : Option Nat)
    (hpre : ∀ f ∈ pre, nonmatching_frame cmd f = true)
    (hdir : r.direction = READ_DIRECTION) (hcmd : r.command = cmd) :
    check_response cmd (pre ++ .ok r :: rest) reg_value =
      if r.status = STATUS_FAILURE then (.error .INVALID_RESPONSE, reg_value)
      else (.ok (), reg_value.map (fun _ => r.value)) := by
  rw [check_response_skip cmd pre (.ok r :: rest) reg_value hpre]
  simp only [check_response]
  rw [if_neg (by push_neg; exact ⟨hdir, hcmd⟩)]

theorem check_response_first_match_witness :
    check_response .FLASH_BEGIN
      [.ok ⟨1, .SYNC, 0, 0, .COMMAND_FAILED⟩,
       .ok ⟨1, .FLASH_BEGIN, 7, 0, .COMMAND_FAILED⟩] (some 0) =
      (.ok (), some 7) := by
  have h := check_response_first_match .FLASH_BEGIN
    [.ok ⟨1, .SYNC, 0, 0, .COMMAND_FAILED⟩] []
    ⟨1, .FLASH_BEGIN, 7, 0, .COMMAND_FAILED⟩ (some 0) (by decide) rfl rfl
  simpa [STATUS_FAILURE] using h

/-- Claim C5: for every command, a matching response frame whose status is
STATUS_FAILURE — whatever the device error code — makes check_response return
the generic INVALID_RESPONSE error, not success and not the raw device code,
leaving the register cell untouched. -/
theorem check_response_failure_invalid (cmd : command_t) (r : response_t)
    (rest : List (Except loader_err response_t)) (reg_value : Option Nat)
    (hdir : r.direction = READ_DIRECTION) (hcmd : r.command = cmd)
    (hst : r.status = STATUS_FAILURE) :
    check_response cmd (.ok r :: rest) reg_value =
      (.error .INVALID_RESPONSE, reg_value) := by
  simp only [check_response]
  rw [if_neg (by push_neg; exact ⟨hdir, hcmd⟩), if_pos hst]

theorem check_response_failure_invalid_witness :
    check_response .FLASH_BEGIN [.ok ⟨1, .FLASH_BEGIN, 0, 1, .INVALID_CRC⟩]
      none = (.error .INVALID_RESPONSE, none) :=
  check_response_failure_invalid .FLASH_BEGIN
    ⟨1, .FLASH_BEGIN, 0, 1, .INVALID_CRC⟩ [] none rfl rfl rfl

theorem check_response_error_keeps_reg (cmd : command_t)
    (frames : List (Except loader_err response_t)) :
    ∀ (reg_value : Option Nat) (e : loader_err),
      (check_response cmd frames reg_value).1 = .error e →
      (check_response cmd frames reg_value).2 = reg_value := by
  induction frames with
  | nil => intro rv e _; rfl
  | cons f rest ih =>
    intro rv e h
    cases f with
    | error e2 => rfl
    | ok r =>
      simp only [check_response] at h ⊢
      by_cases hc : r.direction ≠ READ_DIRECTION ∨ r.command ≠ cmd
      · rw [if_pos hc] at h ⊢
        exact ih rv e h
      · rw [if_neg hc] at h ⊢
        by_cases hs : r.status = STATUS_FAILURE
        · rw [if_pos hs]
        · rw [if_neg hs] at h
          simp at h

/-- Claim C9: when loader_read_reg_cmd returns any error — a transport write
failure, a failing or malformed receive, or a device-reported failure — the
caller's register cell is left unchanged; it is overwritten only on a
matching SUCCESS response. -/
theorem loader_read_reg_cmd_error_keeps_reg (address reg : Nat) (t : Transport)
    (e : loader_err) (h : (loader_read_reg_cmd address reg t).1 = .error e) :
    (loader_read_reg_cmd address reg t).2 = reg := by
  cases hw : t.writeResult with
  | error e2 => simp [loader_read_reg_cmd, send_cmd, hw]
  | ok u =>
    simp only [loader_read_reg_cmd, send_cmd, hw] at h ⊢
    rw [check_response_error_keeps_reg .READ_REG t.frames (some reg) e h]
    rfl

theorem loader_read_reg_cmd_error_keeps_reg_witness :
    (loader_read_reg_cmd 0 5 ⟨.ok (), []⟩).1 = .error .TIMEOUT ∧
      (loader_read_reg_cmd 0 5 ⟨.ok (), []⟩).2 = 5 :=
  ⟨rfl, loader_read_reg_cmd_error_keeps_reg 0 5 ⟨.ok (), []⟩ .TIMEOUT rfl⟩

/-- Claim C10: every call to loader_flash_data_cmd or loader_mem_data_cmd
advances the session sequence counter by exactly one (as a uint32, wrapping
at 2^32) for every transport behaviour, including failing sends and
device-reported failures, because the post-increment happens when the packet
is built; the packet itself carries the pre-increment counter value, so a
failed data command still consumes a sequence number. -/
theorem data_cmd_increments_always (data : List Nat) (t : Transport)
    (st : LoaderState) :
    (loader_flash_data_cmd data t st).2.1.s_sequence_number
        = (st.s_sequence_number + 1) % 2 ^ 32 ∧
      (loader_mem_data_cmd data t st).2.1.s_sequence_number
        = (st.s_sequence_number + 1) % 2 ^ 32 ∧
      (loader_flash_data_cmd data t st).2.2.sequence_number
        = st.s_sequence_number ∧
      (loader_mem_data_cmd data t st).2.2.sequence_number
        = st.s_sequence_number :=
  ⟨rfl, rfl, rfl, rfl⟩

theorem run_ops_data_range (datas : List LoaderOp) :
    ∀ c : Nat, (∀ op ∈ datas, op.isData = true) → c + datas.length ≤ 2 ^ 32 →
      (run_ops datas ⟨c⟩).1.map data_command_t.sequence_number
        = List.range' c datas.length := by
  induction datas with
  | nil => intro c _ _; simp [run_ops]
  | cons op rest ih =>
    intro c h hb
    have hop := h op (List.mem_cons_self op rest)
    have hrest := fun x hx => h x (List.mem_cons_of_mem op hx)
    cases op with
    | flash_begin o e b k t => simp [LoaderOp.isData] at hop
    | mem_begin o e b k t => simp [LoaderOp.isData] at hop
    | flash_data d t =>
      simp only [run_ops, loader_flash_data_cmd, List.map_cons, List.length_cons]
      rw [List.range'_succ c rest.length 1]
      cases rest with
      | nil => simp [run_ops]
      | cons op2 rest2 =>
        have hlt : c + 1 < 2 ^ 32 := by
          simp only [List.length_cons] at hb
          omega
        rw [Nat.mod_eq_of_lt hlt]
        exact congrArg (c :: ·) (ih (c + 1) hrest (by
          simp only [List.length_cons] at hb ⊢
          omega))
    | mem_data d t =>
      simp only [run_ops, loader_mem_data_cmd, List.map_cons, List.length_cons]
      rw [List.range'_succ c rest.length 1]
      cases rest with
      | nil => simp [run_ops]
      | cons op2 rest2 =>
        have hlt : c + 1 < 2 ^ 32 := by
          simp only [List.length_cons] at hb
          omega
        rw [Nat.mod_eq_of_lt hlt]
        exact congrArg (c :: ·) (ih (c + 1) hrest (by
          simp only [List.length_cons] at hb ⊢
          omega))

/-- Claim C3: whatever the session counter was before, a begin command
(loader_flash_begin_cmd or loader_mem_begin_cmd) resets it to 0, and each
subsequent data command builds its packet with the current counter and then
increments it, so the packets built by n data calls after the begin carry
sequence numbers 0, 1, ..., n-1 (the nth data packet since the last begin
carries n-1); since the theorem holds for every starting state, a later begin
resets the next data call to 0 again. -/
theorem begin_then_data_sequence_numbers (st : LoaderState) (op0 : LoaderOp)
    (datas : List LoaderOp)
    (h0 : op0.isBegin = true)
    (h1 : ∀ op ∈ datas, op.isData = true)
    (h2 : datas.length ≤ 2 ^ 32) :
    (run_ops (op0 :: datas) st).1.map data_command_t.sequence_number
      = List.range datas.length := by
  cases op0 with
  | flash_begin o e b k t =>
    simp only [run_ops, loader_flash_begin_cmd]
    rw [run_ops_data_range datas 0 h1 (by omega)]
    exact (List.range_eq_range' datas.length).symm
  | mem_begin o e b k t =>
    simp only [run_ops, loader_mem_begin_cmd]
    rw [run_ops_data_range datas 0 h1 (by omega)]
    exact (List.range_eq_range' datas.length).symm
  | flash_data d t => simp [LoaderOp.isBegin] at h0
  | mem_data d t => simp [LoaderOp.isBegin] at h0

theorem begin_then_data_sequence_numbers_witness :
    (run_ops [.flash_begin 0 0 0 0 ⟨.ok (), []⟩,
              .flash_data [1] ⟨.ok (), []⟩,
              .flash_data [2] ⟨.ok (), []⟩,
              .flash_data [3] ⟨.ok (), []⟩]
        ⟨57⟩).1.map data_command_t.sequence_number = List.range 3 :=
  begin_then_data_sequence_numbers ⟨57⟩ (.flash_begin 0 0 0 0 ⟨.ok (), []⟩)
    [.flash_data [1] ⟨.ok (), []⟩, .flash_data [2] ⟨.ok (), []⟩,
     .flash_data [3] ⟨.ok (), []⟩] rfl (by decide) (by norm_num)
